import Mathlib

/-!
# Verification of the dos_safar OS boot manager against its specification

Shallow embedding of the core logic of the `dos_safar` repository
(`src/bootloader/os_manager.rs`, `src/bootloader/menu.rs`,
`src/hardware/device_detect.rs`) in Lean 4, together with theorems
settling the specification claims about it.

Modelling conventions:
* Rust functions returning `Result<T>` become Lean functions returning
  `Except String T` (error messages modelled as English strings; the
  structural flow, not the message text, is what the claims concern).
* Filesystem state touched by the lifecycle operations is made explicit
  as a `SysState` record threaded through the operations; in-process
  filesystem primitives (`fs::write`, `fs::remove_dir_all`,
  `fs::remove_file` on paths under the manager's control) are modelled
  as succeeding, while every delegated external command (`tar`, `wget`,
  `file`, the update step) is an explicit outcome parameter, because its
  result depends on the environment.
* `chrono` timestamps are totally ordered values; they are modelled as
  `Nat`.
-/

namespace DosSafar

/-- Substring test on character lists: Rust `str::contains(needle)`. -/
def infix_of (needle : List Char) : List Char → Bool
  | [] => needle.isEmpty
  | c :: rest => needle.isPrefixOf (c :: rest) || infix_of needle rest

/-- Rust `String::contains`: `needle` occurs contiguously in `hay`. -/
def str_contains (hay needle : String) : Bool :=
  infix_of needle.data hay.data

/-- Rust `str::to_lowercase`, modelled as per-character lowercasing
(the two agree on ASCII, the domain of every string the code inspects:
file extensions, device-tree model strings, `file` tool output). -/
def lower_str (s : String) : String :=
  String.mk (s.data.map Char.toLower)

/-! ## Image container-type detection (`os_manager.rs` lines 395-431) -/

/-- `ImageType` enum from `os_manager.rs` (lines 1006-1012). -/
inductive ImageType
  | ISO
  | IMG
  | TAR
  | ZIP
  deriving DecidableEq, Repr

/-- `OSManager::detect_image_type_by_content` (`os_manager.rs` lines 414-431):
runs the external `file` tool on the path; `file_output` is `none` when the
tool could not be executed (the `.context(..)?` failure), otherwise the
tool's stdout.  The lowercased output is scanned for `iso`, `tar`, `zip`;
anything else defaults to `IMG`. -/
def detect_image_type_by_content (file_output : Option String) :
    Except String ImageType :=
  match file_output with
  | none => Except.error "failed to determine the file type"
  | some out =>
    let file_info := lower_str out
    if str_contains file_info "iso" then Except.ok ImageType.ISO
    else if str_contains file_info "tar" then Except.ok ImageType.TAR
    else if str_contains file_info "zip" then Except.ok ImageType.ZIP
    else Except.ok ImageType.IMG

/-- `OSManager::detect_image_type` (`os_manager.rs` lines 395-412):
`extension` is `path.extension()` (`none` when the file name has no
extension); a missing extension is an immediate error (`ok_or_else` +
`?`), a recognized extension is matched directly, and only an
unrecognized extension falls back to content sniffing. -/
def detect_image_type (extension : Option String) (file_output : Option String) :
    Except String ImageType :=
  match extension with
  | none => Except.error "cannot determine the image type"
  | some e =>
    match lower_str e with
    | "iso" => Except.ok ImageType.ISO
    | "img" => Except.ok ImageType.IMG
    | "tar" => Except.ok ImageType.TAR
    | "tgz" => Except.ok ImageType.TAR
    | "zip" => Except.ok ImageType.ZIP
    | _ => detect_image_type_by_content file_output

/-! ## Device classification (`device_detect.rs` lines 125-213) -/

/-- `DeviceType` enum from `device_detect.rs` (lines 20-29). -/
inductive DeviceType
  | RaspberryPi
  | Anbernic
  | OrangePi
  | BananaPi
  | RockPi
  | Odroid
  | Generic
  deriving DecidableEq, Repr

/-- The identity sources probed by `DeviceDetector`: the contents of
`/proc/device-tree/model` and `/proc/cpuinfo` (`none` when unreadable)
and the existence of the two Anbernic marker directories. -/
structure HostEnv where
  device_tree_model : Option String
  cpuinfo : Option String
  opt_anbernic_exists : Bool
  boot_anbernic_exists : Bool
  deriving DecidableEq, Repr

/-- `DeviceDetector::is_raspberry_pi` (`device_detect.rs` lines 158-170):
if the device-tree model file is readable its (lowercased) contents decide
the answer; otherwise `cpuinfo` is consulted; otherwise `false`. -/
def is_raspberry_pi (env : HostEnv) : Bool :=
  match env.device_tree_model with
  | some content => str_contains (lower_str content) "raspberry pi"
  | none =>
    match env.cpuinfo with
    | some content => str_contains (lower_str content) "raspberry pi"
    | none => false

/-- `DeviceDetector::is_anbernic_device` (`device_detect.rs` lines 172-185):
if the device-tree model file is readable, its contents decide the answer
(matching `rg351`/`rg552`/`rg35xx`/`anbernic`); only when it is unreadable
are the marker directories consulted. -/
def is_anbernic_device (env : HostEnv) : Bool :=
  match env.device_tree_model with
  | some content =>
    let model := lower_str content
    str_contains model "rg351" || str_contains model "rg552" ||
      str_contains model "rg35xx" || str_contains model "anbernic"
  | none => env.opt_anbernic_exists || env.boot_anbernic_exists

/-- `DeviceDetector::is_orange_pi` (`device_detect.rs` lines 187-192). -/
def is_orange_pi (env : HostEnv) : Bool :=
  match env.device_tree_model with
  | some content => str_contains (lower_str content) "orange pi"
  | none => false

/-- `DeviceDetector::is_banana_pi` (`device_detect.rs` lines 194-199). -/
def is_banana_pi (env : HostEnv) : Bool :=
  match env.device_tree_model with
  | some content => str_contains (lower_str content) "banana pi"
  | none => false

/-- `DeviceDetector::is_rock_pi` (`device_detect.rs` lines 201-206). -/
def is_rock_pi (env : HostEnv) : Bool :=
  match env.device_tree_model with
  | some content => str_contains (lower_str content) "rock pi"
  | none => false

/-- `DeviceDetector::is_odroid` (`device_detect.rs` lines 208-213). -/
def is_odroid (env : HostEnv) : Bool :=
  match env.device_tree_model with
  | some content => str_contains (lower_str content) "odroid"
  | none => false

/-- `DeviceDetector::detect_device_type` (`device_detect.rs` lines 125-156):
fixed probe order with first positive match winning: Raspberry Pi, then
Anbernic, then Orange Pi, Banana Pi, Rock Pi, Odroid, defaulting to
`Generic`. -/
def detect_device_type (env : HostEnv) : DeviceType :=
  if is_raspberry_pi env then DeviceType.RaspberryPi
  else if is_anbernic_device env then DeviceType.Anbernic
  else if is_orange_pi env then DeviceType.OrangePi
  else if is_banana_pi env then DeviceType.BananaPi
  else if is_rock_pi env then DeviceType.RockPi
  else if is_odroid env then DeviceType.Odroid
  else DeviceType.Generic

/-! ## Catalog entries and their ordering
(`menu.rs` lines 17-36 and 83-91, `os_manager.rs` lines 301-311) -/

/-- `OSType` enum from `menu.rs` (lines 27-36). -/
inductive OSType
  | RetroPie
  | Batocera
  | Recalbox
  | RaspberryPiOS
  | Ubuntu
  | Debian
  | Unknown
  deriving DecidableEq, Repr

/-- `OperatingSystem` struct from `menu.rs` (lines 17-25); the
`chrono::DateTime<Utc>` timestamp is modelled as `Nat`. -/
structure OperatingSystem where
  name : String
  path : String
  description : String
  os_type : OSType
  is_bootable : Bool
  last_used : Option Nat
  deriving DecidableEq, Repr

/-- The sort comparator used (identically) by
`OSManager::get_available_systems` (`os_manager.rs` lines 302-309) and
`BootMenu::scan_for_operating_systems` (`menu.rs` lines 84-91):
both timestamps present compares the timestamps descending
(`b_time.cmp(a_time)`), a present timestamp sorts before an absent one,
and two absent timestamps compare by name ascending. -/
def compare_systems (a b : OperatingSystem) : Ordering :=
  match a.last_used, b.last_used with
  | some a_time, some b_time => compare b_time a_time
  | some _, none => Ordering.lt
  | none, some _ => Ordering.gt
  | none, none => compare a.name b.name

/-- The non-strict order induced by `compare_systems`; Rust
`Vec::sort_by` sorts stably into an order in which no adjacent pair
compares `Greater`. -/
def le_system (a b : OperatingSystem) : Bool :=
  decide (compare_systems a b ≠ Ordering.gt)

/-- The catalog sort, modelling the stable `sort_by` call. -/
def sort_systems (l : List OperatingSystem) : List OperatingSystem :=
  l.mergeSort le_system

/-- Swapping the comparator's arguments swaps the outcome. -/
theorem compare_systems_swap (a b : OperatingSystem) :
    compare_systems b a = (compare_systems a b).swap := by
  unfold compare_systems
  rcases a.last_used with _ | ta <;> rcases b.last_used with _ | tb
  case none.none =>
    show compare b.name a.name = (compare a.name b.name).swap
    rcases lt_trichotomy a.name b.name with h | h | h
    · rw [compare_gt_iff_gt.mpr h, compare_lt_iff_lt.mpr h]; rfl
    · rw [h, compare_eq_iff_eq.mpr (rfl : b.name = b.name)]; rfl
    · rw [compare_lt_iff_lt.mpr h, compare_gt_iff_gt.mpr h]; rfl
  case none.some => rfl
  case some.none => rfl
  case some.some =>
    show compare ta tb = (compare tb ta).swap
    rcases lt_trichotomy ta tb with h | h | h
    · rw [compare_lt_iff_lt.mpr h, compare_gt_iff_gt.mpr h]; rfl
    · rw [h, compare_eq_iff_eq.mpr (rfl : tb = tb)]; rfl
    · rw [compare_gt_iff_gt.mpr h, compare_lt_iff_lt.mpr h]; rfl

/-- Unfolding lemma for the induced non-strict order. -/
theorem le_system_ne_gt (a b : OperatingSystem) :
    le_system a b = true ↔ compare_systems a b ≠ Ordering.gt := by
  simp [le_system]

/-- `le_system` is transitive. -/
theorem le_system_trans (a b c : OperatingSystem) :
    le_system a b → le_system b c → le_system a c := by
  intro hab hbc
  rw [le_system_ne_gt] at hab hbc
  rw [le_system_ne_gt]
  unfold compare_systems at hab hbc ⊢
  rcases ha : a.last_used with _ | ta <;> rcases hb : b.last_used with _ | tb <;>
    rcases hc : c.last_used with _ | tc <;>
    simp only [ha, hb, hc] at hab hbc ⊢ <;>
    first
      | exact absurd rfl hab
      | exact absurd rfl hbc
      | decide
      | (rw [compare_le_iff_le] at hab hbc ⊢
         first
           | exact le_trans hab hbc
           | exact le_trans hbc hab)

/-- `le_system` is total. -/
theorem le_system_total (a b : OperatingSystem) :
    le_system a b || le_system b a := by
  rw [Bool.or_eq_true, le_system_ne_gt, le_system_ne_gt]
  unfold compare_systems
  rcases ha : a.last_used with _ | ta <;> rcases hb : b.last_used with _ | tb <;>
    simp only [ha, hb] <;>
    first
      | (left ; decide)
      | (right ; decide)
      | (rw [compare_le_iff_le, compare_le_iff_le]
         exact le_total _ _)

/-! ## Claim C4: the catalog ordering -/

/-- C4 counterexample: two *distinct* catalog entries carrying the same
`last_used` timestamp satisfy neither `a before b` nor `b before a` —
the comparator reports them equivalent and no deterministic tie-break
(e.g. by name) is applied, so the claimed strict total order fails. -/
theorem C4_strict_order_cex :
    (OperatingSystem.mk "Alpha" "/p/a" "da" OSType.Unknown true (some 5)) ≠
      (OperatingSystem.mk "Beta" "/p/b" "db" OSType.Unknown true (some 5)) ∧
    compare_systems
        (OperatingSystem.mk "Alpha" "/p/a" "da" OSType.Unknown true (some 5))
        (OperatingSystem.mk "Beta" "/p/b" "db" OSType.Unknown true (some 5)) ≠
      Ordering.lt ∧
    compare_systems
        (OperatingSystem.mk "Beta" "/p/b" "db" OSType.Unknown true (some 5))
        (OperatingSystem.mk "Alpha" "/p/a" "da" OSType.Unknown true (some 5)) ≠
      Ordering.lt := by
  refine ⟨by decide, by decide, by decide⟩

/-- C4 (amended): the catalog comparator is a deterministic total
*preorder*, not a strict total order: an entry with a timestamp sorts
strictly before any without one, a later timestamp strictly before an
earlier one, and name ascending breaks ties only among entries without
timestamps; two distinct entries are strictly ordered one way exactly
when their sort keys differ — two entries with the *same* present
timestamp compare equivalent (their relative order is left to the
stable sort's input order).  Re-sorting an already sorted catalog
leaves it unchanged, so repeated scans of unchanged input produce the
same order. -/
theorem C4_sort_order_amended (a b : OperatingSystem) (l : List OperatingSystem) :
    (compare_systems a b = Ordering.lt ↔ compare_systems b a = Ordering.gt) ∧
    (a.last_used.isSome = true → b.last_used = none →
      compare_systems a b = Ordering.lt) ∧
    (∀ ta tb : Nat, a.last_used = some ta → b.last_used = some tb → tb < ta →
      compare_systems a b = Ordering.lt) ∧
    (a.last_used = none → b.last_used = none → a.name < b.name →
      compare_systems a b = Ordering.lt) ∧
    (compare_systems a b = Ordering.eq ↔
      ((∃ t, a.last_used = some t ∧ b.last_used = some t) ∨
        (a.last_used = none ∧ b.last_used = none ∧ a.name = b.name))) ∧
    ((a.last_used ≠ b.last_used ∨
        (a.last_used = none ∧ b.last_used = none ∧ a.name ≠ b.name)) →
      (compare_systems a b = Ordering.lt ↔ ¬ compare_systems b a = Ordering.lt)) ∧
    sort_systems (sort_systems l) = sort_systems l := by
  have hswap := compare_systems_swap a b
  have heq : compare_systems a b = Ordering.eq ↔
      ((∃ t, a.last_used = some t ∧ b.last_used = some t) ∨
        (a.last_used = none ∧ b.last_used = none ∧ a.name = b.name)) := by
    unfold compare_systems
    rcases ha : a.last_used with _ | ta <;> rcases hb : b.last_used with _ | tb
    case none.none => rw [compare_eq_iff_eq]; simp
    case none.some => simp
    case some.none => simp
    case some.some => rw [compare_eq_iff_eq]; simp [eq_comm]
  refine ⟨?_, ?_, ?_, ?_, heq, ?_, ?_⟩
  · rw [hswap]
    rcases compare_systems a b <;> decide
  · intro hsome hnone
    unfold compare_systems
    rcases ha : a.last_used with _ | ta
    · rw [ha] at hsome; simp at hsome
    · rw [hnone]
  · intro ta tb ha hb hlt
    unfold compare_systems
    rw [ha, hb]
    exact compare_lt_iff_lt.mpr hlt
  · intro ha hb hlt
    unfold compare_systems
    rw [ha, hb]
    exact compare_lt_iff_lt.mpr hlt
  · intro hkey
    have hne : compare_systems a b ≠ Ordering.eq := by
      intro hc
      rcases heq.mp hc with ⟨t, hat, hbt⟩ | ⟨han, hbn, hnm⟩
      · rcases hkey with h | ⟨h, _, _⟩
        · exact h (hat.trans hbt.symm)
        · rw [h] at hat; exact Option.noConfusion hat
      · rcases hkey with h | ⟨_, _, h⟩
        · exact h (han.trans hbn.symm)
        · exact h hnm
    constructor
    · intro hlt
      rw [hlt] at hswap
      rw [hswap]
      decide
    · intro hnl
      rcases hcmp : compare_systems a b
      · rfl
      · exact absurd hcmp hne
      · rw [hcmp] at hswap
        rw [hswap] at hnl
        exact absurd rfl hnl
  · exact List.mergeSort_of_sorted
      (@List.sorted_mergeSort OperatingSystem le_system
        (fun x y z => le_system_trans x y z) (fun x y => le_system_total x y) l)

/-- C4 witness: concrete entries exercising the amended ordering —
timestamp beats no-timestamp, later timestamp beats earlier, name
ascending among timestamp-less entries, and strict one-way ordering for
distinct sort keys. -/
theorem C4_sort_order_witness :
    compare_systems
        (OperatingSystem.mk "A" "/a" "d" OSType.Unknown true (some 7))
        (OperatingSystem.mk "B" "/b" "d" OSType.Unknown true none) = Ordering.lt ∧
    compare_systems
        (OperatingSystem.mk "A" "/a" "d" OSType.Unknown true (some 7))
        (OperatingSystem.mk "B" "/b" "d" OSType.Unknown true (some 3)) = Ordering.lt ∧
    compare_systems
        (OperatingSystem.mk "A" "/a" "d" OSType.Unknown true none)
        (OperatingSystem.mk "B" "/b" "d" OSType.Unknown true none) = Ordering.lt ∧
    (compare_systems
        (OperatingSystem.mk "A" "/a" "d" OSType.Unknown true (some 7))
        (OperatingSystem.mk "B" "/b" "d" OSType.Unknown true (some 3)) = Ordering.lt ↔
      ¬ compare_systems
        (OperatingSystem.mk "B" "/b" "d" OSType.Unknown true (some 3))
        (OperatingSystem.mk "A" "/a" "d" OSType.Unknown true (some 7)) = Ordering.lt) := by
  refine ⟨?_, ?_, ?_, ?_⟩
  · exact (C4_sort_order_amended
      (OperatingSystem.mk "A" "/a" "d" OSType.Unknown true (some 7))
      (OperatingSystem.mk "B" "/b" "d" OSType.Unknown true none) []).2.1 rfl rfl
  · exact (C4_sort_order_amended
      (OperatingSystem.mk "A" "/a" "d" OSType.Unknown true (some 7))
      (OperatingSystem.mk "B" "/b" "d" OSType.Unknown true (some 3)) []).2.2.1
      7 3 rfl rfl (by decide)
  · exact (C4_sort_order_amended
      (OperatingSystem.mk "A" "/a" "d" OSType.Unknown true none)
      (OperatingSystem.mk "B" "/b" "d" OSType.Unknown true none) []).2.2.2.1
      rfl rfl (String.lt_iff_toList_lt.mpr (by decide))
  · exact (C4_sort_order_amended
      (OperatingSystem.mk "A" "/a" "d" OSType.Unknown true (some 7))
      (OperatingSystem.mk "B" "/b" "d" OSType.Unknown true (some 3)) []).2.2.2.2.2.1
      (Or.inl (by decide))

/-! ## Claim C3: container-type detection order -/

/-- C3 counterexample: the claim says a source with no extension at all
still gets classified (via content sniffing) rather than rejected, but
`detect_image_type` errors out immediately when `path.extension()` is
`None` — even when the `file` tool's output would have resolved the type. -/
theorem C3_no_extension_rejected_cex :
    (detect_image_type none (some "ISO 9660 CD-ROM filesystem data")).isOk = false ∧
      detect_image_type none (some "ISO 9660 CD-ROM filesystem data") =
        Except.error "cannot determine the image type" := by
  exact ⟨rfl, rfl⟩

/-- C3 (amended): container-type detection tries a (case-insensitive)
file-extension match (`iso`/`img`/`tar`/`tgz`/`zip`) first; a present but
unrecognized extension falls back to content sniffing via the external
type-identification tool, and content the tool cannot resolve defaults
to raw-image handling — but a source with no extension at all is
rejected with an error, not classified. -/
theorem C3_detection_order_amended (e : String) (out : Option String) :
    (detect_image_type none out = Except.error "cannot determine the image type") ∧
    (lower_str e = "iso" → detect_image_type (some e) out = Except.ok ImageType.ISO) ∧
    (lower_str e = "img" → detect_image_type (some e) out = Except.ok ImageType.IMG) ∧
    (lower_str e = "tar" → detect_image_type (some e) out = Except.ok ImageType.TAR) ∧
    (lower_str e = "tgz" → detect_image_type (some e) out = Except.ok ImageType.TAR) ∧
    (lower_str e = "zip" → detect_image_type (some e) out = Except.ok ImageType.ZIP) ∧
    (lower_str e ≠ "iso" → lower_str e ≠ "img" → lower_str e ≠ "tar" →
      lower_str e ≠ "tgz" → lower_str e ≠ "zip" →
      detect_image_type (some e) out = detect_image_type_by_content out) ∧
    (∀ s : String, str_contains (lower_str s) "iso" = false →
      str_contains (lower_str s) "tar" = false →
      str_contains (lower_str s) "zip" = false →
      detect_image_type_by_content (some s) = Except.ok ImageType.IMG) := by
  refine ⟨rfl, ?_, ?_, ?_, ?_, ?_, ?_, ?_⟩
  · intro h; unfold detect_image_type; split <;> simp_all
  · intro h; unfold detect_image_type; split <;> simp_all
  · intro h; unfold detect_image_type; split <;> simp_all
  · intro h; unfold detect_image_type; split <;> simp_all
  · intro h; unfold detect_image_type; split <;> simp_all
  · intro h1 h2 h3 h4 h5
    unfold detect_image_type
    split <;> simp_all
  · intro s h1 h2 h3
    simp only [detect_image_type_by_content, h1, h2, h3]
    rfl

/-- C3 witness: concrete instances exercising every hypothesis of the
amended detection-order theorem. -/
theorem C3_detection_order_witness :
    detect_image_type none (some "x") = Except.error "cannot determine the image type" ∧
    detect_image_type (some "IsO") none = Except.ok ImageType.ISO ∧
    detect_image_type (some "bin") (some "POSIX tar archive") =
      detect_image_type_by_content (some "POSIX tar archive") ∧
    detect_image_type_by_content (some "data") = Except.ok ImageType.IMG := by
  refine ⟨(C3_detection_order_amended "IsO" (some "x")).1, ?_, ?_, ?_⟩
  · exact (C3_detection_order_amended "IsO" none).2.1 (by rfl)
  · exact (C3_detection_order_amended "bin" (some "POSIX tar archive")).2.2.2.2.2.2.1
      (by decide) (by decide) (by decide) (by decide) (by decide)
  · exact (C3_detection_order_amended "bin" none).2.2.2.2.2.2.2 "data"
      (by rfl) (by rfl) (by rfl)

/-! ## Claim C9: device-classification probe order -/

/-- C9 counterexample: a host whose device-tree model matches both the
Anbernic handheld signature and the Raspberry Pi board signature is
classified as `RaspberryPi`, not as the handheld class — the board
signature is probed first, contradicting the claimed priority order. -/
theorem C9_board_before_handheld_cex :
    is_anbernic_device
        { device_tree_model := some "Raspberry Pi CM4 inside Anbernic RG351 shell"
          cpuinfo := none, opt_anbernic_exists := false, boot_anbernic_exists := false }
      = true ∧
    is_raspberry_pi
        { device_tree_model := some "Raspberry Pi CM4 inside Anbernic RG351 shell"
          cpuinfo := none, opt_anbernic_exists := false, boot_anbernic_exists := false }
      = true ∧
    detect_device_type
        { device_tree_model := some "Raspberry Pi CM4 inside Anbernic RG351 shell"
          cpuinfo := none, opt_anbernic_exists := false, boot_anbernic_exists := false }
      = DeviceType.RaspberryPi ∧
    DeviceType.RaspberryPi ≠ DeviceType.Anbernic := by
  exact ⟨rfl, rfl, rfl, by decide⟩

/-- C9 (amended): classification probes identity sources in a fixed
priority order with the first positive match winning and `Generic` as
final fallback, but the Raspberry Pi board signature is probed *before*
the vendor-specific handheld signature: a host matching both is
classified `RaspberryPi`; the handheld signature only takes priority
over the remaining board signatures (Orange Pi, Banana Pi, Rock Pi,
Odroid). -/
theorem C9_classification_order_amended (env : HostEnv) :
    (is_raspberry_pi env = true → detect_device_type env = DeviceType.RaspberryPi) ∧
    (is_raspberry_pi env = false → is_anbernic_device env = true →
      detect_device_type env = DeviceType.Anbernic) ∧
    (is_raspberry_pi env = false → is_anbernic_device env = false →
      is_orange_pi env = true → detect_device_type env = DeviceType.OrangePi) ∧
    (is_raspberry_pi env = false → is_anbernic_device env = false →
      is_orange_pi env = false → is_banana_pi env = true →
      detect_device_type env = DeviceType.BananaPi) ∧
    (is_raspberry_pi env = false → is_anbernic_device env = false →
      is_orange_pi env = false → is_banana_pi env = false →
      is_rock_pi env = true → detect_device_type env = DeviceType.RockPi) ∧
    (is_raspberry_pi env = false → is_anbernic_device env = false →
      is_orange_pi env = false → is_banana_pi env = false →
      is_rock_pi env = false → is_odroid env = true →
      detect_device_type env = DeviceType.Odroid) ∧
    (is_raspberry_pi env = false → is_anbernic_device env = false →
      is_orange_pi env = false → is_banana_pi env = false →
      is_rock_pi env = false → is_odroid env = false →
      detect_device_type env = DeviceType.Generic) := by
  refine ⟨?_, ?_, ?_, ?_, ?_, ?_, ?_⟩ <;>
    intros <;> simp only [detect_device_type, *] <;> rfl

/-- C9 witness: three concrete hosts exercising the amended ordering —
one matching both the board and handheld signatures (classified
`RaspberryPi`), one matching the handheld and a later board signature
(classified `Anbernic`), and one matching nothing (classified
`Generic`). -/
theorem C9_classification_order_witness :
    detect_device_type
        { device_tree_model := some "Raspberry Pi CM4 inside Anbernic RG351 shell"
          cpuinfo := none, opt_anbernic_exists := false, boot_anbernic_exists := false }
      = DeviceType.RaspberryPi ∧
    detect_device_type
        { device_tree_model := some "Anbernic RG552 with ODROID core"
          cpuinfo := none, opt_anbernic_exists := false, boot_anbernic_exists := false }
      = DeviceType.Anbernic ∧
    detect_device_type
        { device_tree_model := some "Mystery Box"
          cpuinfo := none, opt_anbernic_exists := false, boot_anbernic_exists := false }
      = DeviceType.Generic := by
  refine ⟨?_, ?_, ?_⟩
  · exact (C9_classification_order_amended _).1 (by rfl)
  · exact (C9_classification_order_amended _).2.1 (by rfl) (by rfl)
  · exact (C9_classification_order_amended _).2.2.2.2.2.2 (by rfl) (by rfl) (by rfl)
      (by rfl) (by rfl) (by rfl)

/-! ## Boot policy decision (`menu.rs` lines 52-71, 266-279, 501-516) -/

/-- The decision taken by `BootMenu::show_menu`: either the "no systems
found" informational screen (`show_no_os_menu`), auto-booting a specific
catalog entry (`auto_boot_default` finding its entry and calling
`boot_operating_system`), or the interactive menu
(`show_interactive_menu`). -/
inductive BootDecision
  | no_systems_found
  | auto_boot (os : OperatingSystem)
  | interactive_menu
  deriving DecidableEq, Repr

/-- `BootMenu::show_menu` (`menu.rs` lines 52-71) composed with
`BootMenu::auto_boot_default` (lines 266-279), as a decision function:
an empty catalog goes straight to the no-systems screen; otherwise a
configured, non-empty default name is looked up in the catalog
(`iter().find(.. name == default ..)`) and auto-booted when found, with
fallback to the interactive menu; without a usable default the
interactive menu is shown. -/
def show_menu_decision (available_systems : List OperatingSystem)
    (default_os : Option String) : BootDecision :=
  if available_systems.isEmpty then BootDecision.no_systems_found
  else
    match default_os with
    | some d =>
      if d.isEmpty then BootDecision.interactive_menu
      else
        match available_systems.find? (fun os => os.name == d) with
        | some os => BootDecision.auto_boot os
        | none => BootDecision.interactive_menu
    | none => BootDecision.interactive_menu

/-- In a list of entries with pairwise-distinct names, the name lookup
finds exactly the member carrying that name. -/
theorem find?_name_unique (systems : List OperatingSystem) (d : String)
    (huniq : systems.Pairwise (fun x y => x.name ≠ y.name))
    (os : OperatingSystem) (hmem : os ∈ systems) (hname : os.name = d) :
    systems.find? (fun x => x.name == d) = some os := by
  induction systems with
  | nil => cases hmem
  | cons x rest ih =>
    rcases List.mem_cons.mp hmem with hx | hrest
    · subst hx
      simp [List.find?, hname]
    · have hxo : x.name ≠ os.name :=
        (List.pairwise_cons.mp huniq).1 os hrest
      have hxd : (x.name == d) = false := by
        rw [hname] at hxo
        exact beq_eq_false_iff_ne.mpr hxo
      simp only [List.find?, hxd]
      exact ih (List.pairwise_cons.mp huniq).2 hrest

/-! ## Claim C7: auto-boot of the configured default -/

/-- C7: with a non-empty catalog and a configured non-empty default
name, the engine auto-boots only a catalog entry whose name equals the
default; when distinct entries have distinct names it auto-boots exactly
the entry named by the default; and when no catalog entry carries the
default name it falls back to the interactive menu instead of booting
anything. -/
theorem C7_default_auto_boot (systems : List OperatingSystem) (d : String)
    (hne : systems.isEmpty = false) (hd : d.isEmpty = false) :
    (∀ os : OperatingSystem,
      show_menu_decision systems (some d) = BootDecision.auto_boot os →
        os ∈ systems ∧ os.name = d) ∧
    ((∃ os ∈ systems, os.name = d) →
      ∃ os ∈ systems, os.name = d ∧
        show_menu_decision systems (some d) = BootDecision.auto_boot os) ∧
    (systems.Pairwise (fun x y => x.name ≠ y.name) →
      ∀ os ∈ systems, os.name = d →
        show_menu_decision systems (some d) = BootDecision.auto_boot os) ∧
    ((∀ os ∈ systems, os.name ≠ d) →
      show_menu_decision systems (some d) = BootDecision.interactive_menu) := by
  have hdec : show_menu_decision systems (some d) =
      match systems.find? (fun os => os.name == d) with
      | some os => BootDecision.auto_boot os
      | none => BootDecision.interactive_menu := by
    simp [show_menu_decision, hne, hd]
  refine ⟨?_, ?_, ?_, ?_⟩
  · intro os h
    rw [hdec] at h
    rcases hfind : systems.find? (fun x => x.name == d) with _ | x
    · rw [hfind] at h
      cases h
    · rw [hfind] at h
      cases h
      have hmem := List.mem_of_find?_eq_some hfind
      have hpx := List.find?_some hfind
      exact ⟨hmem, beq_iff_eq.mp hpx⟩
  · rintro ⟨os, hmem, hname⟩
    have hsome : (systems.find? (fun x => x.name == d)).isSome := by
      rw [List.find?_isSome]
      exact ⟨os, hmem, beq_iff_eq.mpr hname⟩
    rcases hfind : systems.find? (fun x => x.name == d) with _ | x
    · rw [hfind] at hsome
      cases hsome
    · have hmem2 := List.mem_of_find?_eq_some hfind
      have hpx := List.find?_some hfind
      refine ⟨x, hmem2, beq_iff_eq.mp hpx, ?_⟩
      rw [hdec, hfind]
  · intro huniq os hmem hname
    rw [hdec, find?_name_unique systems d huniq os hmem hname]
  · intro habs
    have hnone : systems.find? (fun x => x.name == d) = none := by
      rw [List.find?_eq_none]
      intro x hx
      simp only [beq_iff_eq]
      exact habs x hx
    rw [hdec, hnone]

/-- C7 witness: a two-entry catalog with default "RetroPie" auto-boots
exactly the RetroPie entry, and with an absent default name "Foo" falls
back to the interactive menu. -/
theorem C7_default_auto_boot_witness :
    show_menu_decision
        [OperatingSystem.mk "RetroPie" "/boot" "Retro Gaming System" OSType.RetroPie true none,
         OperatingSystem.mk "Batocera" "/boot" "Retro Gaming Distribution" OSType.Batocera true none]
        (some "RetroPie") =
      BootDecision.auto_boot
        (OperatingSystem.mk "RetroPie" "/boot" "Retro Gaming System" OSType.RetroPie true none) ∧
    show_menu_decision
        [OperatingSystem.mk "RetroPie" "/boot" "Retro Gaming System" OSType.RetroPie true none,
         OperatingSystem.mk "Batocera" "/boot" "Retro Gaming Distribution" OSType.Batocera true none]
        (some "Foo") = BootDecision.interactive_menu := by
  constructor
  · exact (C7_default_auto_boot
      [OperatingSystem.mk "RetroPie" "/boot" "Retro Gaming System" OSType.RetroPie true none,
       OperatingSystem.mk "Batocera" "/boot" "Retro Gaming Distribution" OSType.Batocera true none]
      "RetroPie" rfl rfl).2.2.1 (by decide)
      (OperatingSystem.mk "RetroPie" "/boot" "Retro Gaming System" OSType.RetroPie true none)
      (by decide) rfl
  · exact (C7_default_auto_boot
      [OperatingSystem.mk "RetroPie" "/boot" "Retro Gaming System" OSType.RetroPie true none,
       OperatingSystem.mk "Batocera" "/boot" "Retro Gaming Distribution" OSType.Batocera true none]
      "Foo" rfl rfl).2.2.2 (by decide)

/-! ## Claim C8: empty catalog never auto-boots -/

/-- C8: with an empty catalog the engine's decision — for every
configured default, including none — is the "no systems found"
informational state, and in particular never the auto-booting state. -/
theorem C8_empty_catalog_no_autoboot (default_os : Option String) :
    show_menu_decision [] default_os = BootDecision.no_systems_found ∧
    ∀ os : OperatingSystem,
      show_menu_decision [] default_os ≠ BootDecision.auto_boot os := by
  refine ⟨rfl, ?_⟩
  intro os h
  cases h

/-! ## Lifecycle state model (`os_manager.rs`)

The filesystem state the lifecycle operations touch, made explicit:
which OS install directories exist under `/boot/dos_safar/systems`,
which backup archives exist under `/boot/dos_safar/backups`, and the
contents of `registry.json` (`none` when the file does not exist).
External commands (`tar` creation/extraction, `wget`, the update step)
have environment-dependent outcomes and are passed as explicit
parameters; in-process filesystem primitives on paths the manager
controls are modelled as succeeding. -/

/-- One `registry.json` value (`os_manager.rs` lines 715-722):
name-keyed record of path, `last_used`, bootable flag and size. -/
structure RegEntry where
  path : String
  last_used : Option Nat
  bootable : Bool
  size_mb : Nat
  deriving DecidableEq, Repr

/-- The manager-visible filesystem state. -/
structure SysState where
  installDirs : List String
  backupFiles : List String
  registry : Option (List (String × RegEntry))
  deriving DecidableEq, Repr

/-- Outcome of one delegated external command: `status.success()` or a
failure carrying the tool's stderr. -/
inductive ToolResult
  | success
  | failure (stderr : String)
  deriving DecidableEq, Repr

/-- `OSBackup` struct from `os_manager.rs` (lines 43-50). -/
structure OSBackup where
  os_name : String
  backup_date : Nat
  backup_size_mb : Nat
  backup_path : String
  is_bootable : Bool
  deriving DecidableEq, Repr

/-- `self.os_storage_path.join(os_name)` (`os_manager.rs` line 74). -/
def os_install_path (os_name : String) : String :=
  "/boot/dos_safar/systems/" ++ os_name

/-- The backup archive path built by `backup_os` (`os_manager.rs` lines
158-159): `backups/{os_name}_{timestamp}.tar.gz`. -/
def backup_archive_path (os_name timestamp : String) : String :=
  "/boot/dos_safar/backups/" ++ os_name ++ "_" ++ timestamp ++ ".tar.gz"

/-- JSON-object insertion: `registry[os_name] = json!({..})` overwrites
any entry under the same key and otherwise appends. -/
def set_entry (m : List (String × RegEntry)) (k : String) (v : RegEntry) :
    List (String × RegEntry) :=
  match m with
  | [] => [(k, v)]
  | (k', v') :: rest => if k' = k then (k, v) :: rest else (k', v') :: set_entry rest k v

/-- JSON-object removal: `obj.remove(os_name)`. -/
def remove_entry (m : List (String × RegEntry)) (k : String) :
    List (String × RegEntry) :=
  match m with
  | [] => []
  | (k', v') :: rest => if k' = k then rest else (k', v') :: remove_entry rest k

/-- JSON-object lookup by key. -/
def get_entry (m : List (String × RegEntry)) (k : String) : Option RegEntry :=
  match m with
  | [] => none
  | (k', v') :: rest => if k' = k then some v' else get_entry rest k

/-- `OSManager::register_os` (`os_manager.rs` lines 703-729): read the
registry file when it exists (an unparsable one degrades to the empty
object), insert a fresh record for the OS (path, fresh install date,
`last_used: null`, bootable, size from `du`), and write the whole file
back in place.  The write itself is traced separately by
`register_os_trace`. -/
def register_os (s : SysState) (os_name : String) (size_mb : Nat) : SysState :=
  let m := s.registry.getD []
  let entry : RegEntry :=
    { path := os_install_path os_name, last_used := none
      bootable := true, size_mb := size_mb }
  { s with registry := some (set_entry m os_name entry) }

/-- `OSManager::unregister_os` (`os_manager.rs` lines 731-753): a
missing registry file is a no-op success; otherwise the key is removed
and the whole file rewritten in place. -/
def unregister_os (s : SysState) (os_name : String) : SysState :=
  match s.registry with
  | none => s
  | some m => { s with registry := some (remove_entry m os_name) }

/-- `OSManager::backup_os` (`os_manager.rs` lines 150-193): NotFound
when no install directory exists; otherwise `tar -czf` into
`{os_name}_{timestamp}.tar.gz`; a failing tar surfaces its stderr;
on success the archive's size is read back (`size_mb`) and an `OSBackup`
record (bootable assumed `true`) is returned. -/
def backup_os (s : SysState) (os_name timestamp : String) (now size_mb : Nat)
    (tar_create : ToolResult) : SysState × Except String OSBackup :=
  if ! s.installDirs.contains os_name then
    (s, Except.error ("system not found: " ++ os_name))
  else
    let backup_file := backup_archive_path os_name timestamp
    match tar_create with
    | ToolResult.failure e => (s, Except.error ("backup creation failed: " ++ e))
    | ToolResult.success =>
      ({ s with backupFiles := s.backupFiles ++ [backup_file] },
        Except.ok
          { os_name := os_name, backup_date := now, backup_size_mb := size_mb
            backup_path := backup_file, is_bootable := true })

/-- `OSManager::restore_os_from_backup` (`os_manager.rs` lines 196-232):
NotFound when the archive is missing; any existing install directory for
the name is deleted first; then `tar -xzf` (its failure surfaces the
stderr *after* the old directory is already gone); on success the OS is
re-registered (fresh metadata, size from `du` passed as `size_mb`). -/
def restore_os_from_backup (s : SysState) (backup : OSBackup)
    (tar_extract : ToolResult) (size_mb : Nat) : SysState × Except String Unit :=
  if ! s.backupFiles.contains backup.backup_path then
    (s, Except.error "backup archive not found")
  else
    let s1 := { s with installDirs := s.installDirs.erase backup.os_name }
    match tar_extract with
    | ToolResult.failure e => (s1, Except.error ("restore failed: " ++ e))
    | ToolResult.success =>
      let s2 := { s1 with installDirs := s1.installDirs ++ [backup.os_name] }
      (register_os s2 backup.os_name size_mb, Except.ok ())

/-- `OSManager::remove_os` (`os_manager.rs` lines 235-258): NotFound
when not installed; when `create_backup` is set, `backup_os` runs first
and its failure aborts the whole remove (the `?`); only then is the
install directory deleted and the name unregistered. -/
def remove_os (s : SysState) (os_name : String) (create_backup : Bool)
    (timestamp : String) (now size_mb : Nat) (tar_create : ToolResult) :
    SysState × Except String Unit :=
  if ! s.installDirs.contains os_name then
    (s, Except.error ("system not found: " ++ os_name))
  else
    let finish := fun (s1 : SysState) =>
      let s2 := { s1 with installDirs := s1.installDirs.erase os_name }
      (unregister_os s2 os_name, Except.ok ())
    if create_backup then
      match backup_os s os_name timestamp now size_mb tar_create with
      | (s1, Except.error e) => (s1, Except.error e)
      | (s1, Except.ok _) => finish s1
    else finish s

/-- `OSManager::update_os` (`os_manager.rs` lines 341-364): backup
first, propagating a backup failure immediately (the `?`); then the
update step (`perform_os_update` — a stub in the source, its outcome is
the `update_result` parameter); on update failure the rollback
`restore_os_from_backup(&backup)?` runs: a failing rollback propagates
the *rollback* error (the `?` discards the original failure `e`), while
a successful rollback returns the original failure. -/
def update_os (s : SysState) (os_name timestamp : String) (now size_mb : Nat)
    (tar_create : ToolResult) (update_result : Except String Unit)
    (tar_extract : ToolResult) (restore_size : Nat) :
    SysState × Except String Unit :=
  match backup_os s os_name timestamp now size_mb tar_create with
  | (s1, Except.error e) => (s1, Except.error e)
  | (s1, Except.ok backup) =>
    match update_result with
    | Except.ok _ => (s1, Except.ok ())
    | Except.error e =>
      match restore_os_from_backup s1 backup tar_extract restore_size with
      | (s2, Except.error re) => (s2, Except.error re)
      | (s2, Except.ok _) => (s2, Except.error e)

/-- A concrete one-OS state used by the witnesses and counterexamples. -/
def demo_state : SysState :=
  { installDirs := ["osA"]
    backupFiles := []
    registry := some [("osA",
      { path := "/boot/dos_safar/systems/osA", last_used := none
        bootable := true, size_mb := 100 })] }

/-- A key held by no pair of the object is not found. -/
theorem get_entry_none_of_keys (m : List (String × RegEntry)) (k : String)
    (h : ∀ q ∈ m, q.1 ≠ k) : get_entry m k = none := by
  induction m with
  | nil => rfl
  | cons q rest ih =>
    show (if q.1 = k then some q.2 else get_entry rest k) = none
    rw [if_neg (h q (List.mem_cons_self q rest))]
    exact ih (fun x hx => h x (List.mem_cons_of_mem q hx))

/-- Removing a key from an object with pairwise-distinct keys removes
its entry. -/
theorem get_entry_remove_entry (m : List (String × RegEntry)) (k : String)
    (huniq : m.Pairwise (fun p q => p.1 ≠ q.1)) :
    get_entry (remove_entry m k) k = none := by
  induction m with
  | nil => rfl
  | cons p rest ih =>
    have hpair := List.pairwise_cons.mp huniq
    by_cases h : p.1 = k
    · show get_entry (if p.1 = k then rest else p :: remove_entry rest k) k = none
      rw [if_pos h]
      exact get_entry_none_of_keys rest k
        (fun q hq hqk => (hpair.1 q hq) (h.trans hqk.symm))
    · show get_entry (if p.1 = k then rest else p :: remove_entry rest k) k = none
      rw [if_neg h]
      show (if p.1 = k then some p.2 else get_entry (remove_entry rest k) k) = none
      rw [if_neg h]
      exact ih hpair.2

/-! ## Claim C1: update with rollback -/

/-- C1 counterexample: when the update step fails and the rollback
restore also fails, the result of `update_os` is *identical* for two
different original update failures — the returned value carries only
the rollback failure, so the original failure is not surfaced at all,
contradicting the claim that both are surfaced together. -/
theorem C1_rollback_swallows_original_cex :
    update_os demo_state "osA" "20250101_000000" 0 100 ToolResult.success
        (Except.error "update step failed (reason 1)") (ToolResult.failure "disk full") 100 =
      update_os demo_state "osA" "20250101_000000" 0 100 ToolResult.success
        (Except.error "update step failed (reason 2)") (ToolResult.failure "disk full") 100 ∧
    (update_os demo_state "osA" "20250101_000000" 0 100 ToolResult.success
        (Except.error "update step failed (reason 1)") (ToolResult.failure "disk full") 100).2 =
      Except.error "restore failed: disk full" ∧
    "update step failed (reason 1)" ≠ "update step failed (reason 2)" := by
  refine ⟨rfl, rfl, by decide⟩

/-- C1 (amended): update always takes a backup first and fails
immediately (state unchanged) when the backup fails; if the update step
fails and the rollback restore succeeds, the install directory is
restored, the OS re-registered, and the *original* update failure is
returned; but if the rollback restore itself fails, only the rollback
failure is surfaced — the original update failure is discarded (and on
that path the install directory has already been deleted by the failed
restore). -/
theorem C1_update_rollback_amended (s : SysState) (os ts : String)
    (now sz rsz : Nat) (e re : String) (upd : Except String Unit)
    (tex : ToolResult) (h : s.installDirs.contains os = true) :
    (update_os s os ts now sz (ToolResult.failure e) upd tex rsz =
      (s, Except.error ("backup creation failed: " ++ e))) ∧
    (update_os s os ts now sz ToolResult.success (Except.ok ()) tex rsz =
      ({ s with backupFiles := s.backupFiles ++ [backup_archive_path os ts] },
        Except.ok ())) ∧
    (update_os s os ts now sz ToolResult.success (Except.error e)
        ToolResult.success rsz =
      ({ installDirs := (s.installDirs.erase os) ++ [os]
         backupFiles := s.backupFiles ++ [backup_archive_path os ts]
         registry := some (set_entry (s.registry.getD []) os
           { path := os_install_path os, last_used := none
             bootable := true, size_mb := rsz }) },
        Except.error e)) ∧
    (update_os s os ts now sz ToolResult.success (Except.error e)
        (ToolResult.failure re) rsz =
      ({ installDirs := s.installDirs.erase os
         backupFiles := s.backupFiles ++ [backup_archive_path os ts]
         registry := s.registry },
        Except.error ("restore failed: " ++ re))) := by
  have hm : os ∈ s.installDirs := by simpa using h
  refine ⟨?_, ?_, ?_, ?_⟩
  · simp [update_os, backup_os, hm]
  · simp [update_os, backup_os, hm]
  · simp [update_os, backup_os, restore_os_from_backup, register_os, hm]
  · simp [update_os, backup_os, restore_os_from_backup, hm]

/-- C1 witness: the amended rollback contract at the concrete one-OS
state, exercising the backup-failure, success, rollback-success and
rollback-failure branches. -/
theorem C1_update_rollback_witness :
    update_os demo_state "osA" "20250101_000000" 0 100
        (ToolResult.failure "tar: write error") (Except.ok ())
        ToolResult.success 100 =
      (demo_state, Except.error "backup creation failed: tar: write error") ∧
    update_os demo_state "osA" "20250101_000000" 0 100 ToolResult.success
        (Except.ok ()) ToolResult.success 100 =
      ({ demo_state with backupFiles :=
          demo_state.backupFiles ++ [backup_archive_path "osA" "20250101_000000"] },
        Except.ok ()) ∧
    update_os demo_state "osA" "20250101_000000" 0 100 ToolResult.success
        (Except.error "bad update source") ToolResult.success 100 =
      ({ installDirs := (demo_state.installDirs.erase "osA") ++ ["osA"]
         backupFiles := demo_state.backupFiles ++
           [backup_archive_path "osA" "20250101_000000"]
         registry := some (set_entry (demo_state.registry.getD []) "osA"
           { path := os_install_path "osA", last_used := none
             bootable := true, size_mb := 100 }) },
        Except.error "bad update source") ∧
    update_os demo_state "osA" "20250101_000000" 0 100 ToolResult.success
        (Except.error "bad update source") (ToolResult.failure "disk full") 100 =
      ({ installDirs := demo_state.installDirs.erase "osA"
         backupFiles := demo_state.backupFiles ++
           [backup_archive_path "osA" "20250101_000000"]
         registry := demo_state.registry },
        Except.error "restore failed: disk full") := by
  refine ⟨?_, ?_, ?_, ?_⟩
  · exact (C1_update_rollback_amended demo_state "osA" "20250101_000000" 0 100 100
      "tar: write error" "disk full" (Except.ok ()) ToolResult.success rfl).1
  · exact (C1_update_rollback_amended demo_state "osA" "20250101_000000" 0 100 100
      "tar: write error" "disk full" (Except.ok ()) ToolResult.success rfl).2.1
  · exact (C1_update_rollback_amended demo_state "osA" "20250101_000000" 0 100 100
      "bad update source" "disk full" (Except.ok ()) ToolResult.success rfl).2.2.1
  · exact (C1_update_rollback_amended demo_state "osA" "20250101_000000" 0 100 100
      "bad update source" "disk full" (Except.ok ()) ToolResult.success rfl).2.2.2

/-! ## Claim C5: remove with backup-first -/

/-- C5: for an installed OS, `remove_os` with the backup flag set runs
the backup first: a backup failure aborts the remove with that failure
and the state — install directory and registry entry included — is left
completely intact; only after a successful backup (the archive now
existing) is the install directory deleted and the name unregistered
(its registry entry removed). -/
theorem C5_remove_backup_first (s : SysState) (os ts : String)
    (now sz : Nat) (e : String) (h : s.installDirs.contains os = true) :
    (remove_os s os true ts now sz (ToolResult.failure e) =
      (s, Except.error ("backup creation failed: " ++ e))) ∧
    (remove_os s os true ts now sz ToolResult.success =
      ({ installDirs := s.installDirs.erase os
         backupFiles := s.backupFiles ++ [backup_archive_path os ts]
         registry := s.registry.map (fun m => remove_entry m os) },
        Except.ok ())) ∧
    (∀ m, s.registry = some m → m.Pairwise (fun p q => p.1 ≠ q.1) →
      (remove_os s os true ts now sz ToolResult.success).1.registry =
          some (remove_entry m os) ∧
        get_entry (remove_entry m os) os = none) := by
  have hmem : os ∈ s.installDirs := by simpa using h
  refine ⟨?_, ?_, ?_⟩
  · simp [remove_os, backup_os, hmem]
  · rcases hreg : s.registry with _ | m <;>
      simp [remove_os, backup_os, unregister_os, hmem, hreg]
  · intro m hm huniq
    constructor
    · rcases hreg : s.registry with _ | m'
      · rw [hreg] at hm; cases hm
      · rw [hreg] at hm
        cases hm
        simp [remove_os, backup_os, unregister_os, hmem, hreg]
    · exact get_entry_remove_entry m os huniq

/-- C5 witness: the backup-first remove contract at the concrete one-OS
state — a failed backup leaves the state untouched, a successful one
deletes the directory and the registry entry. -/
theorem C5_remove_backup_first_witness :
    remove_os demo_state "osA" true "20250101_000000" 0 100
        (ToolResult.failure "disk full") =
      (demo_state, Except.error "backup creation failed: disk full") ∧
    remove_os demo_state "osA" true "20250101_000000" 0 100 ToolResult.success =
      ({ installDirs := demo_state.installDirs.erase "osA"
         backupFiles := demo_state.backupFiles ++
           [backup_archive_path "osA" "20250101_000000"]
         registry := demo_state.registry.map (fun m => remove_entry m "osA") },
        Except.ok ()) ∧
    get_entry (remove_entry (demo_state.registry.getD []) "osA") "osA" = none := by
  refine ⟨?_, ?_, ?_⟩
  · exact (C5_remove_backup_first demo_state "osA" "20250101_000000" 0 100
      "disk full" rfl).1
  · exact (C5_remove_backup_first demo_state "osA" "20250101_000000" 0 100
      "disk full" rfl).2.1
  · exact ((C5_remove_backup_first demo_state "osA" "20250101_000000" 0 100
      "disk full" rfl).2.2 (demo_state.registry.getD []) rfl (by simp [demo_state])).2

/-! ## Claim C6: URL install and transient-file cleanup
(`os_manager.rs` lines 133-147) -/

/-- The transient download target `/tmp/{os_name}.img`
(`os_manager.rs` line 137). -/
def temp_image_path (os_name : String) : String :=
  "/tmp/" ++ os_name ++ ".img"

/-- `OSManager::install_os_from_url` (`os_manager.rs` lines 133-147),
tracking which transient files exist: `download_os_image` runs
`wget -O /tmp/{os_name}.img`, which creates the output file before
fetching, so the file exists whether or not the download succeeds; a
download failure propagates immediately (`?`, wrapping the tool's
stderr).  Then `install_os_from_image` runs on the transient file, its
outcome the `install_result` parameter — a failure again propagates
immediately (`?`), *before* the cleanup line; only on success does the
best-effort `let _ = fs::remove_file(&temp_path)` erase the transient
file. -/
def install_os_from_url (temp_files : List String) (os_name : String)
    (download_result : Except String Unit) (install_result : Except String Unit) :
    List String × Except String Unit :=
  let temp_path := temp_image_path os_name
  let t1 := temp_files ++ [temp_path]
  match download_result with
  | Except.error e => (t1, Except.error ("download failed: " ++ e))
  | Except.ok _ =>
    match install_result with
    | Except.error e => (t1, Except.error e)
    | Except.ok _ => (t1.erase temp_path, Except.ok ())

/-- C6 counterexample: when the delegated path-based install fails, the
function returns the failure with the fetched transient file still
present — cleanup does *not* happen regardless of outcome. -/
theorem C6_temp_left_on_failure_cex :
    install_os_from_url [] "osA" (Except.ok ()) (Except.error "extraction failed") =
      (["/tmp/osA.img"], Except.error "extraction failed") ∧
    (install_os_from_url [] "osA" (Except.ok ())
        (Except.error "extraction failed")).1.contains (temp_image_path "osA") = true := by
  exact ⟨rfl, rfl⟩

/-- C6 (amended): a URL install fetches the resource to the transient
location (the `wget -O` target file coming into existence either way)
and delegates to the path-based install, but removes the transient file
only when the delegated install succeeds; on the failure path of the
download or of the delegated install the failure is returned
immediately and the transient file is left behind. -/
theorem C6_url_install_cleanup_amended (temp_files : List String)
    (os_name : String) (e : String) (ir : Except String Unit)
    (h : temp_image_path os_name ∉ temp_files) :
    (install_os_from_url temp_files os_name (Except.error e) ir =
      (temp_files ++ [temp_image_path os_name],
        Except.error ("download failed: " ++ e))) ∧
    ((install_os_from_url temp_files os_name (Except.error e)
        ir).1.contains (temp_image_path os_name) = true) ∧
    (install_os_from_url temp_files os_name (Except.ok ()) (Except.error e) =
      (temp_files ++ [temp_image_path os_name], Except.error e)) ∧
    ((install_os_from_url temp_files os_name (Except.ok ())
        (Except.error e)).1.contains (temp_image_path os_name) = true) ∧
    (install_os_from_url temp_files os_name (Except.ok ()) (Except.ok ()) =
      (temp_files, Except.ok ())) := by
  refine ⟨rfl, by simp [install_os_from_url], rfl, by simp [install_os_from_url], ?_⟩
  show (((temp_files ++ [temp_image_path os_name]).erase (temp_image_path os_name)),
      (Except.ok () : Except String Unit)) = (temp_files, Except.ok ())
  rw [List.erase_append_right _ h, List.erase_cons_head]
  simp

/-- C6 witness: the amended cleanup contract at concrete inputs — the
transient file survives both a failed download and a failed delegated
install, and is gone after a successful install. -/
theorem C6_url_install_cleanup_witness :
    install_os_from_url [] "osA" (Except.error "404 not found") (Except.ok ()) =
      (["/tmp/osA.img"], Except.error "download failed: 404 not found") ∧
    install_os_from_url [] "osA" (Except.ok ()) (Except.error "extract error") =
      (["/tmp/osA.img"], Except.error "extract error") ∧
    install_os_from_url [] "osA" (Except.ok ()) (Except.ok ()) =
      ([], Except.ok ()) := by
  refine ⟨?_, ?_, ?_⟩
  · exact (C6_url_install_cleanup_amended [] "osA" "404 not found" (Except.ok ())
      (by simp)).1
  · exact (C6_url_install_cleanup_amended [] "osA" "extract error" (Except.ok ())
      (by simp)).2.2.1
  · exact (C6_url_install_cleanup_amended [] "osA" "extract error" (Except.ok ())
      (by simp)).2.2.2.2

/-! ## Claim C2: registry writes are in place, not atomic replace
(`os_manager.rs` lines 703-753) -/

/-- The persisted registry file
(`self.os_storage_path.join("registry.json")`). -/
def registry_file_path : String :=
  "/boot/dos_safar/systems/registry.json"

/-- The filesystem operations a registry mutation can perform: reading
a file, writing a whole file directly in place at a path (`fs::write`),
or atomically renaming a freshly written file over a path. -/
inductive FsOp
  | read_file (path : String)
  | write_file (path : String)
  | rename_file (src dst : String)
  deriving DecidableEq, Repr

/-- Whether an operation is an atomic rename. -/
def is_rename : FsOp → Bool
  | FsOp.rename_file _ _ => true
  | _ => false

/-- The filesystem operations performed by `OSManager::register_os`
(`os_manager.rs` lines 703-729): `fs::read_to_string` when the registry
file exists, then a single direct `fs::write` to the same
`registry.json` path — no temporary file, no rename.  The content
written is the full serialized object modelled by `register_os`. -/
def register_os_trace (registry_exists : Bool) : List FsOp :=
  (if registry_exists then [FsOp.read_file registry_file_path] else []) ++
    [FsOp.write_file registry_file_path]

/-- The filesystem operations performed by `OSManager::unregister_os`
(`os_manager.rs` lines 731-753): nothing when the registry file is
missing; otherwise `fs::read_to_string` followed by a single direct
`fs::write` to the same path. -/
def unregister_os_trace (registry_exists : Bool) : List FsOp :=
  if registry_exists then
    [FsOp.read_file registry_file_path, FsOp.write_file registry_file_path]
  else []

/-- C2 counterexample: registering over an existing registry performs a
direct in-place write to `registry.json` and no atomic rename at all —
mutations are not write-new-then-replace. -/
theorem C2_in_place_write_cex :
    FsOp.write_file registry_file_path ∈ register_os_trace true ∧
    (register_os_trace true).all (fun op => ! is_rename op) = true ∧
    FsOp.write_file registry_file_path ∈ unregister_os_trace true ∧
    (unregister_os_trace true).all (fun op => ! is_rename op) = true := by
  refine ⟨by simp [register_os_trace], rfl, by simp [unregister_os_trace], rfl⟩

/-- C2 (amended): register and unregister mutate the persisted registry
by reading the whole file (when it exists) and then rewriting the new
serialized contents with a single direct in-place whole-file write to
the same `registry.json` path; no temporary file is written and no
atomic rename is performed (unregister on a missing file touches
nothing). -/
theorem C2_registry_write_discipline_amended (registry_exists : Bool) :
    (register_os_trace registry_exists =
      if registry_exists then
        [FsOp.read_file registry_file_path, FsOp.write_file registry_file_path]
      else [FsOp.write_file registry_file_path]) ∧
    (unregister_os_trace registry_exists =
      if registry_exists then
        [FsOp.read_file registry_file_path, FsOp.write_file registry_file_path]
      else []) ∧
    ((register_os_trace registry_exists).all (fun op => ! is_rename op) = true) ∧
    ((unregister_os_trace registry_exists).all (fun op => ! is_rename op) = true) ∧
    ((register_os_trace registry_exists).getLast? =
      some (FsOp.write_file registry_file_path)) := by
  cases registry_exists <;>
    exact ⟨rfl, rfl, rfl, rfl, rfl⟩

/-! ## Claim C10: backup-record name parsing
(`os_manager.rs` lines 158-159, 315-338, 929-951) -/

/-- Rust `Path::file_stem` on a file name, over its characters: the
portion before the last `.`; when there is no `.`, or the portion
before it is empty (a leading-dot hidden file), the whole name. -/
def rust_file_stem (cs : List Char) : List Char :=
  let pre := ((cs.reverse.dropWhile (fun c => c ≠ '.')).drop 1).reverse
  if pre.isEmpty then cs else pre

/-- Rust `str::split(sep)` over characters: the list of separated
segments (an empty input yields one empty segment, as in Rust). -/
def rust_split (sep : Char) : List Char → List (List Char)
  | [] => [[]]
  | c :: rest =>
    if c = sep then [] :: rust_split sep rest
    else
      match rust_split sep rest with
      | [] => [[c]]
      | p :: ps => (c :: p) :: ps

/-- `OSManager::analyze_backup_file` (`os_manager.rs` lines 929-951),
restricted to the `os_name` field it extracts: the backup file's stem
(`file_stem`, stripping only the final `.gz`) is split on `_` and the
first part (defaulting to `"unknown"`) becomes the record's `os_name`.
`file_name` is the path's final component, which is what `file_stem`
inspects. -/
def analyze_backup_os_name (file_name : String) : String :=
  match rust_split '_' (rust_file_stem file_name.data) with
  | [] => "unknown"
  | p :: _ => String.mk p

/-- The archive file name written by `backup_os` (`os_manager.rs` lines
158-159): `{os_name}_{YYYYMMDD_HHMMSS}.tar.gz`; `get_backups` (lines
315-338) later lists exactly the `gz` files and runs
`analyze_backup_file` on them. -/
def backup_file_name (os_name timestamp : String) : String :=
  os_name ++ "_" ++ timestamp ++ ".tar.gz"

/-- The head of a Rust split is the longest separator-free leading
segment. -/
theorem rust_split_head (sep : Char) (cs : List Char) :
    (rust_split sep cs).head? = some (cs.takeWhile (fun c => c ≠ sep)) := by
  induction cs with
  | nil => rfl
  | cons c rest ih =>
    by_cases h : c = sep
    · subst h
      simp [rust_split, List.takeWhile_cons]
    · rcases hs : rust_split sep rest with _ | ⟨p, ps⟩
      · rw [hs] at ih
        cases ih
      · rw [hs] at ih
        simp only [List.head?_cons] at ih
        simp [rust_split, h, hs, List.takeWhile_cons, Option.some.inj ih]

/-- `file_stem` strips exactly the final `.gz` when the name ends in
`.gz` and the rest is non-empty. -/
theorem rust_file_stem_append_gz (a : List Char) (ha : a.isEmpty = false) :
    rust_file_stem (a ++ ('.' :: 'g' :: 'z' :: [])) = a := by
  have hcore : ((((a ++ ('.' :: 'g' :: 'z' :: [])).reverse.dropWhile
      (fun c => c ≠ '.')).drop 1).reverse) = a := by
    have h1 : (a ++ ('.' :: 'g' :: 'z' :: [])).reverse
        = 'z' :: 'g' :: '.' :: a.reverse := by
      simp
    rw [h1]
    rw [List.dropWhile_cons_of_pos (by decide), List.dropWhile_cons_of_pos (by decide),
      List.dropWhile_cons_of_neg (by decide)]
    simp
  simp only [rust_file_stem]
  rw [hcore]
  simp [ha]

/-- `takeWhile` ignores everything past a failing element. -/
theorem takeWhile_append_of_mem_not (p : Char → Bool) (xs ys : List Char)
    (x : Char) (hx : x ∈ xs) (hpx : p x = false) :
    (xs ++ ys).takeWhile p = xs.takeWhile p := by
  induction xs with
  | nil => cases hx
  | cons a rest ih =>
    rcases List.mem_cons.mp hx with h | h
    · subst h
      simp [List.takeWhile_cons, hpx]
    · by_cases hp : p a
      · simp [List.takeWhile_cons, hp, ih h]
      · simp [List.takeWhile_cons, hp]

/-- C10: for every backup archive, the record's `os_name` is the
portion of the archive's file stem before the first underscore; hence
for an OS whose name contains an underscore, backing up and then
listing yields a record whose `os_name` is a strict prefix of — in
particular not equal to — the original OS name. -/
theorem C10_backup_name_underscore (os_name ts : String)
    (h : '_' ∈ os_name.data) :
    analyze_backup_os_name (backup_file_name os_name ts) =
      String.mk (os_name.data.takeWhile (fun c => c ≠ '_')) ∧
    (analyze_backup_os_name (backup_file_name os_name ts)).data <+: os_name.data ∧
    analyze_backup_os_name (backup_file_name os_name ts) ≠ os_name := by
  have h1 : ("_" : String).data = '_' :: [] := rfl
  have h2 : (".tar.gz" : String).data
      = '.' :: 't' :: 'a' :: 'r' :: '.' :: 'g' :: 'z' :: [] := rfl
  have hdata : (backup_file_name os_name ts).data
      = (os_name.data ++ '_' :: (ts.data ++ ('.' :: 't' :: 'a' :: 'r' :: [])))
        ++ ('.' :: 'g' :: 'z' :: []) := by
    simp [backup_file_name, h1, h2]
  have hstem : rust_file_stem (backup_file_name os_name ts).data
      = os_name.data ++ '_' :: (ts.data ++ ('.' :: 't' :: 'a' :: 'r' :: [])) := by
    rw [hdata]
    exact rust_file_stem_append_gz _ (by
      cases hos : os_name.data <;> rfl)
  have htake : ((os_name.data ++ '_' :: (ts.data ++ ('.' :: 't' :: 'a' :: 'r' :: []))).takeWhile
      (fun c => c ≠ '_')) = os_name.data.takeWhile (fun c => c ≠ '_') := by
    exact takeWhile_append_of_mem_not _ _ _ '_' h (by decide)
  have hname : analyze_backup_os_name (backup_file_name os_name ts)
      = String.mk (os_name.data.takeWhile (fun c => c ≠ '_')) := by
    unfold analyze_backup_os_name
    have hh := rust_split_head '_' (rust_file_stem (backup_file_name os_name ts).data)
    rcases hs : rust_split '_' (rust_file_stem (backup_file_name os_name ts).data)
        with _ | ⟨p, ps⟩
    · rw [hs] at hh
      cases hh
    · rw [hs] at hh
      simp only [List.head?_cons] at hh
      rw [Option.some.inj hh, hstem, htake]
  refine ⟨hname, ?_, ?_⟩
  · rw [hname]
    exact List.takeWhile_prefix _
  · rw [hname]
    intro heq
    have hd : os_name.data.takeWhile (fun c => c ≠ '_') = os_name.data :=
      congrArg String.data heq
    have hall := List.takeWhile_eq_self_iff.mp hd '_' h
    simp at hall

/-- C10 witness: the OS name `my_os` round-trips through backup naming
and backup listing into the record name `my`, a strict prefix of and
different from the original. -/
theorem C10_backup_name_underscore_witness :
    analyze_backup_os_name (backup_file_name "my_os" "20250101_120000") =
      String.mk ("my_os".data.takeWhile (fun c => c ≠ '_')) ∧
    (analyze_backup_os_name (backup_file_name "my_os" "20250101_120000")).data <+:
      "my_os".data ∧
    analyze_backup_os_name (backup_file_name "my_os" "20250101_120000") ≠ "my_os" := by
  refine ⟨(C10_backup_name_underscore "my_os" "20250101_120000" (by decide)).1,
    (C10_backup_name_underscore "my_os" "20250101_120000" (by decide)).2.1,
    (C10_backup_name_underscore "my_os" "20250101_120000" (by decide)).2.2⟩

end DosSafar
